import Mathlib

/-!
Verification of the BioProofConsent system against its specification.

Part 1 embeds the Solidity contract `BioProofConsent` (the ConsentLedger):
structs `Study` and `Consent`, the `ConsentStatus` enum, the contract's
storage, and its external functions, translated statement by statement.
Solidity mappings are total functions with default values (the zero value of
the slot type); `require` failures are modelled with `Except String`, the
error carrying the revert reason, and a reverted call leaves the pre-state in
force (EVM revert semantics), made explicit by the `exec` wrapper below.
`block.timestamp` and `msg.sender` are explicit parameters (`now`, `sender`);
addresses are `Nat` (the contract only compares them for equality).
`keccak256(bytes(a)) == keccak256(bytes(b))` in `updateSpecificPermission`
is string equality under the standard collision-free idealisation of keccak.

Part 2 embeds the JavaScript `CredentialHandler` (CredentialIssuer and
CredentialVerifier).
-/

namespace BioProof

inductive ConsentStatus where
  | None
  | Pending
  | Granted
  | Revoked
  | Expired
deriving DecidableEq, Repr, Inhabited

structure Study where
  owner : Nat
  ipfsMetadataHash : String
  title : String
  description : String
  creationDate : Nat
  active : Bool
deriving DecidableEq, Repr, Inhabited

/-- The `Consent` struct. `specificPermissions` is a Solidity mapping
`string => bool`: modelled as an association list read through `lookupPerm`
(first hit wins, default `false`), written by prepending, which gives exactly
the total-map-with-default semantics of the storage mapping. -/
structure Consent where
  participant : Nat
  studyId : Nat
  ipfsConsentDocHash : String
  ipfsCredentialHash : String
  status : ConsentStatus
  timestamp : Nat
  expirationDate : Nat
  specificPermissions : List (String × Bool)
  permissionKeys : List String
deriving DecidableEq, Repr, Inhabited

/-- Reading a `string => bool` storage mapping: the most recent write to the
key, `false` (the slot default) if never written. -/
def lookupPerm : List (String × Bool) → String → Bool
  | [], _ => false
  | (k, v) :: rest, key => if k = key then v else lookupPerm rest key

/-- Zero value of a `Consent` storage slot. -/
def defaultConsent : Consent :=
  { participant := 0, studyId := 0, ipfsConsentDocHash := "",
    ipfsCredentialHash := "", status := ConsentStatus.None, timestamp := 0,
    expirationDate := 0, specificPermissions := [], permissionKeys := [] }

/-- Zero value of a `Study` storage slot. -/
def defaultStudy : Study :=
  { owner := 0, ipfsMetadataHash := "", title := "", description := "",
    creationDate := 0, active := false }

/-- The contract's storage. Mappings are total functions returning the slot
default where never written, exactly as in the EVM. -/
structure ContractState where
  studyCounter : Nat
  studies : Nat → Study
  participantStudies : Nat → List Nat
  studyParticipants : Nat → List Nat
  consentIndex : Nat → Nat → Nat
  consents : Nat → Consent
  consentCounter : Nat

/-- Storage at contract deployment: counters 0, every mapping at defaults. -/
def initialState : ContractState :=
  { studyCounter := 0, studies := fun _ => defaultStudy,
    participantStudies := fun _ => [], studyParticipants := fun _ => [],
    consentIndex := fun _ _ => 0, consents := fun _ => defaultConsent,
    consentCounter := 0 }

/-- Point update of a one-key mapping. -/
def updateFn {α : Type} (f : Nat → α) (k : Nat) (v : α) : Nat → α :=
  fun i => if i = k then v else f i

/-- Point update of a two-key mapping. -/
def updateFn2 {α : Type} (f : Nat → Nat → α) (k1 k2 : Nat) (v : α) :
    Nat → Nat → α :=
  fun i j => if i = k1 ∧ j = k2 then v else f i j

/-- `createStudy`: `uint256 studyId = studyCounter++` then field writes;
no modifier, always succeeds. Returns the new study id. -/
def createStudy (s : ContractState) (sender now : Nat)
    (ipfsMetadataHash title description : String) :
    ContractState × Nat :=
  let studyId := s.studyCounter
  let newStudy : Study :=
    { owner := sender, ipfsMetadataHash := ipfsMetadataHash, title := title,
      description := description, creationDate := now, active := true }
  ({ s with studyCounter := studyId + 1,
            studies := updateFn s.studies studyId newStudy }, studyId)

/-- `updateStudyMetadata`, modifiers `studyExists` then `onlyStudyOwner`. -/
def updateStudyMetadata (s : ContractState) (sender studyId : Nat)
    (ipfsMetadataHash : String) : Except String ContractState :=
  if studyId < s.studyCounter then
    if (s.studies studyId).owner = sender then
      let st := { s.studies studyId with ipfsMetadataHash := ipfsMetadataHash }
      .ok { s with studies := updateFn s.studies studyId st }
    else .error "Not the study owner"
  else .error "Study does not exist"

/-- `setStudyActive`, modifiers `studyExists` then `onlyStudyOwner`. -/
def setStudyActive (s : ContractState) (sender studyId : Nat) (active : Bool) :
    Except String ContractState :=
  if studyId < s.studyCounter then
    if (s.studies studyId).owner = sender then
      let st := { s.studies studyId with active := active }
      .ok { s with studies := updateFn s.studies studyId st }
    else .error "Not the study owner"
  else .error "Study does not exist"

/-- `requestConsent`, modifiers `studyExists`, `studyActive`,
`onlyStudyOwner` in declaration order. `uint256 consentId = consentCounter++`;
the fresh `Consent` slot keeps its stored value for every field the function
does not assign. Appends to both enumeration arrays and overwrites the
pairing index. Returns the new consent id. -/
def requestConsent (s : ContractState) (sender now studyId participant : Nat)
    (ipfsConsentDocHash : String) (expirationDate : Nat) :
    Except String (ContractState × Nat) :=
  if studyId < s.studyCounter then
   if (s.studies studyId).active then
    if (s.studies studyId).owner = sender then
    let consentId := s.consentCounter
    let newConsent : Consent :=
      { s.consents consentId with
        participant := participant, studyId := studyId,
        ipfsConsentDocHash := ipfsConsentDocHash,
        status := ConsentStatus.Pending, timestamp := now,
        expirationDate := expirationDate }
    .ok ({ s with
      consentCounter := consentId + 1,
      consents := updateFn s.consents consentId newConsent,
      consentIndex := updateFn2 s.consentIndex studyId participant consentId,
      studyParticipants := updateFn s.studyParticipants studyId
        (s.studyParticipants studyId ++ [participant]),
      participantStudies := updateFn s.participantStudies participant
        (s.participantStudies participant ++ [studyId]) }, consentId)
    else .error "Not the study owner"
   else .error "Study is not active"
  else .error "Study does not exist"

/-- `grantConsent`, modifier `onlyParticipant`, then the `Pending` require,
then the conditional expiration require
(`if (expirationDate > 0) require(block.timestamp < expirationDate)`). -/
def grantConsent (s : ContractState) (sender now consentId : Nat)
    (ipfsCredentialHash : String) : Except String ContractState :=
  if (s.consents consentId).participant = sender then
    if (s.consents consentId).status = ConsentStatus.Pending then
      if 0 < (s.consents consentId).expirationDate ∧
          ¬ now < (s.consents consentId).expirationDate then
        .error "Consent request has expired"
      else
        let c := { s.consents consentId with
                   status := ConsentStatus.Granted, timestamp := now,
                   ipfsCredentialHash := ipfsCredentialHash }
        .ok { s with consents := updateFn s.consents consentId c }
    else .error "Consent must be in pending state"
  else .error "Not the consent owner"

/-- `revokeConsent`, modifier `onlyParticipant`, then the `Granted` require. -/
def revokeConsent (s : ContractState) (sender now consentId : Nat) :
    Except String ContractState :=
  if (s.consents consentId).participant = sender then
    if (s.consents consentId).status = ConsentStatus.Granted then
      let c := { s.consents consentId with
                 status := ConsentStatus.Revoked, timestamp := now }
      .ok { s with consents := updateFn s.consents consentId c }
    else .error "Consent must be in granted state"
  else .error "Not the consent owner"

/-- `updateSpecificPermission`: the loop over `permissionKeys` compares
keccak hashes of the key strings, i.e. the strings themselves; a key not yet
present is pushed, then the mapping entry is written. -/
def updateSpecificPermission (s : ContractState) (sender consentId : Nat)
    (permissionKey : String) (granted : Bool) : Except String ContractState :=
  if (s.consents consentId).participant = sender then
    if (s.consents consentId).status = ConsentStatus.Granted then
      let c := s.consents consentId
      let keys := if c.permissionKeys.contains permissionKey
        then c.permissionKeys else c.permissionKeys ++ [permissionKey]
      let c2 := { c with
                  permissionKeys := keys,
                  specificPermissions := (permissionKey, granted) ::
                    c.specificPermissions }
      .ok { s with consents := updateFn s.consents consentId c2 }
    else .error "Consent must be in granted state"
  else .error "Not the consent owner"

/-- `checkPermission` (view): the `Granted` require, then the lapse check
`expirationDate > 0 && block.timestamp > expirationDate`, then the stored
mapping value. Being a view function it returns a value and touches no
storage, which the return type makes definitional. -/
def checkPermission (s : ContractState) (now consentId : Nat)
    (permissionKey : String) : Except String Bool :=
  if (s.consents consentId).status = ConsentStatus.Granted then
    if 0 < (s.consents consentId).expirationDate ∧
        now > (s.consents consentId).expirationDate then
      .ok false
    else
      .ok (lookupPerm (s.consents consentId).specificPermissions permissionKey)
  else .error "Consent not granted"

/-- `getConsentStatus` (view), modifier `studyExists`: reads the pairing
index, treats index `0` as "no consent", and otherwise computes `Expired` at
read time for a lapsed `Granted` consent without touching storage. -/
def getConsentStatus (s : ContractState) (now studyId participant : Nat) :
    Except String ConsentStatus :=
  if studyId < s.studyCounter then
    if s.consentIndex studyId participant = 0 then .ok ConsentStatus.None
    else
      if 0 < (s.consents (s.consentIndex studyId participant)).expirationDate ∧
          now > (s.consents (s.consentIndex studyId participant)).expirationDate ∧
          (s.consents (s.consentIndex studyId participant)).status =
            ConsentStatus.Granted then
        .ok ConsentStatus.Expired
      else .ok (s.consents (s.consentIndex studyId participant)).status
  else .error "Study does not exist"

/-- `getParticipantStudies` (view), no modifier. -/
def getParticipantStudies (s : ContractState) (participant : Nat) :
    List Nat :=
  s.participantStudies participant

/-- `getStudyParticipants` (view), modifier `studyExists`. -/
def getStudyParticipants (s : ContractState) (studyId : Nat) :
    Except String (List Nat) :=
  if studyId < s.studyCounter then .ok (s.studyParticipants studyId)
  else .error "Study does not exist"

/-- One external state-mutating entry point of the contract (the view
functions cannot write storage). -/
inductive Op where
  | createStudy (meta title descr : String)
  | updateStudyMetadata (studyId : Nat) (meta : String)
  | setStudyActive (studyId : Nat) (active : Bool)
  | requestConsent (studyId participant : Nat) (docHash : String)
      (expirationDate : Nat)
  | grantConsent (consentId : Nat) (credHash : String)
  | revokeConsent (consentId : Nat)
  | updateSpecificPermission (consentId : Nat) (key : String) (granted : Bool)

/-- Executing one transaction: a reverted call (`Except.error`) leaves the
pre-state unchanged, as on the EVM; the revert reason is reported alongside. -/
def exec (s : ContractState) (sender now : Nat) :
    Op → ContractState × Option String
  | Op.createStudy m t d => ((createStudy s sender now m t d).1, none)
  | Op.updateStudyMetadata sid m =>
      match updateStudyMetadata s sender sid m with
      | .ok s' => (s', none)
      | .error e => (s, some e)
  | Op.setStudyActive sid a =>
      match setStudyActive s sender sid a with
      | .ok s' => (s', none)
      | .error e => (s, some e)
  | Op.requestConsent sid p dh exp =>
      match requestConsent s sender now sid p dh exp with
      | .ok (s', _) => (s', none)
      | .error e => (s, some e)
  | Op.grantConsent cid h =>
      match grantConsent s sender now cid h with
      | .ok s' => (s', none)
      | .error e => (s, some e)
  | Op.revokeConsent cid =>
      match revokeConsent s sender now cid with
      | .ok s' => (s', none)
      | .error e => (s, some e)
  | Op.updateSpecificPermission cid k g =>
      match updateSpecificPermission s sender cid k g with
      | .ok s' => (s', none)
      | .error e => (s, some e)

/-! Concrete executions of the contract model, used below to evaluate the
code on specific inputs. `cexA`: one study created by address 1; `cexB`:
a consent requested from participant 2 with deadline 100 at time 10
(the contract's first consent, so it receives id 0); `cexB2`: a second
request for the same pair at time 11; `cexC`: the first consent granted at
time 20. -/

def cexA : ContractState := (createStudy initialState 1 5 "m" "t" "d").1

def cexB : ContractState :=
  match requestConsent cexA 1 10 0 2 "doc" 100 with
  | .ok p => p.1
  | .error _ => cexA

def cexB2 : ContractState :=
  match requestConsent cexB 1 11 0 2 "doc2" 100 with
  | .ok p => p.1
  | .error _ => cexB

def cexC : ContractState :=
  match grantConsent cexB 2 20 0 "cred" with
  | .ok s => s
  | .error _ => cexB

/-! Small concrete states used to instantiate the general theorems. They are
written as explicit storage contents (one study, one consent) so that side
conditions quantifying over all consent ids can be discharged. -/

def wStudy : Study :=
  { owner := 1, ipfsMetadataHash := "m", title := "t", description := "d",
    creationDate := 5, active := true }

def wPendingConsent : Consent :=
  { participant := 2, studyId := 0, ipfsConsentDocHash := "doc",
    ipfsCredentialHash := "", status := ConsentStatus.Pending,
    timestamp := 10, expirationDate := 100, specificPermissions := [],
    permissionKeys := [] }

def wGrantedConsent : Consent :=
  { wPendingConsent with
    status := ConsentStatus.Granted, timestamp := 20,
    ipfsCredentialHash := "cred",
    specificPermissions := [("share", true)], permissionKeys := ["share"] }

def wRevokedConsent : Consent :=
  { wGrantedConsent with status := ConsentStatus.Revoked, timestamp := 30 }

/-- Storage holding study 0 and one consent `c` at id `cid`, with the
pairing index of (study 0, participant 2) pointing at `cid` and the consent
counter at `n`. -/
def mkState (c : Consent) (cid n : Nat) : ContractState :=
  { studyCounter := 1,
    studies := updateFn (fun _ => defaultStudy) 0 wStudy,
    participantStudies := updateFn (fun _ => []) 2 [0],
    studyParticipants := updateFn (fun _ => []) 0 [2],
    consentIndex := updateFn2 (fun _ _ => 0) 0 2 cid,
    consents := updateFn (fun _ => defaultConsent) cid c,
    consentCounter := n }

def wPendState : ContractState := mkState wPendingConsent 0 1

def wGrantState : ContractState := mkState wGrantedConsent 1 2

def wRevState : ContractState := mkState wRevokedConsent 0 1

def wGrantRes : ContractState :=
  match grantConsent wPendState 2 20 0 "c" with
  | .ok s => s
  | .error _ => wPendState

/-!
Part 2: the JavaScript `CredentialHandler` (frontend/src/utils/
credentialHandler.js). The external cryptographic primitives of ethers.js
and jsonwebtoken are modelled symbolically (perfect-cryptography model):

* `JSON.stringify` of the credential with its `proof` field removed,
  followed by `keccak256`, is a canonical injective serialisation of the
  remaining fields; the composite is therefore represented by the
  `CredentialData` value itself (the spec's determinism requirement makes
  the two byte-identical between issuance and verification).
* `wallet.signMessage(hash)` is a symbolic signature carrying the signer's
  address and the signed content; `ethers.utils.verifyMessage(hash, sig)`
  recovers the signer's address when `sig` really signs `hash`, and
  otherwise fails (recovering the issuer's own address from a signature
  over different content is cryptographically infeasible; in the JS code
  both a throwing recovery and a recovery of an unrelated address end in
  `false`). `Jws.malformed` stands for any `jws` value on which recovery
  throws (missing, truncated, non-hex, ...).
* `jwt.sign(payload, secret)` with HS256 is a symbolic token carrying the
  payload and the secret; `jwt.verify(token, secret)` succeeds exactly when
  the secrets agree. An unconfigured `JWT_SECRET` makes `jwt.verify`
  throw, hence `none` for the secret always fails.
* `ethers.utils.getAddress` (checksum normalisation of a valid address) is
  modelled as the identity on the address string.
* The nondeterministic inputs of issuance (`uuidv4()` and the two
  `new Date().toISOString()` readings) are explicit parameters.
* JS objects are records; a field holding `undefined` (omitted by
  `JSON.stringify`) is `Option.none`. The caller-supplied extension claims
  `additionalData` are kept as an association list spread into
  `credentialSubject` (keys assumed distinct from the five fixed subject
  keys, which the repository's callers respect).
-/

structure Wallet where
  address : String
deriving DecidableEq, Repr, Inhabited

/-- `credentialSubject` as built by `createConsentCredential`: the five
fixed fields, then the spread `...additionalData`. -/
structure CredentialSubject where
  id : String
  type : String
  consentId : String
  studyId : String
  grantedAt : String
  additional : List (String × String)
deriving DecidableEq, Repr, Inhabited

/-- The credential with its `proof` field removed: exactly the content that
is serialised, hashed and signed ('@context' is written `context`). -/
structure CredentialData where
  context : List String
  id : String
  type : List String
  issuer : String
  issuanceDate : String
  expirationDate : Option String
  credentialSubject : CredentialSubject
deriving DecidableEq, Repr, Inhabited

/-- A symbolic ECDSA signature produced by `wallet.signMessage`: who signed
and over which (hash of a) serialised credential. -/
structure EthSignature where
  signer : String
  signedOver : CredentialData
deriving DecidableEq, Repr

/-- The `jws` field of a proof: a well-formed signature, or any value on
which `ethers.utils.verifyMessage` throws. -/
inductive Jws where
  | sig (s : EthSignature)
  | malformed
deriving DecidableEq, Repr, Inhabited

/-- The part of a decoded JWT payload the verifier reads. -/
structure JwtPayload where
  iss : String
deriving DecidableEq, Repr, Inhabited

/-- A symbolic HS256 token: payload plus the secret it was signed with. -/
structure JwtToken where
  payload : JwtPayload
  secret : String
deriving DecidableEq, Repr, Inhabited

/-- A proof object. Embedded-signature proofs carry `jws` and no `jwt`;
token proofs carry `jwt`. An absent field is `none`/`malformed`. -/
structure Proof where
  type : String
  created : String
  proofPurpose : String
  verificationMethod : String
  jws : Jws
  jwt : Option JwtToken
deriving DecidableEq, Repr, Inhabited

/-- A credential object: the signed content plus an optional `proof`. -/
structure Credential extends CredentialData where
  proof : Option Proof
deriving DecidableEq, Repr, Inhabited

/-- `wallet.signMessage(keccak256(stringify(data)))`, symbolically. -/
def signMessage (w : Wallet) (data : CredentialData) : EthSignature :=
  { signer := w.address, signedOver := data }

/-- `ethers.utils.verifyMessage(hash, jws)`: the signer's address when the
signature is over this very content, failure otherwise (see the model note
above). -/
def verifyMessage (data : CredentialData) : Jws → Option String
  | Jws.sig sg => if sg.signedOver = data then some sg.signer else none
  | Jws.malformed => none

/-- `jwt.verify(token, secret)`: the decoded payload when the secrets
agree; `none` models a thrown error (bad secret, or `JWT_SECRET` unset). -/
def jwtVerify (t : JwtToken) : Option String → Option JwtPayload
  | none => none
  | some k => if t.secret = k then some t.payload else none

/-- The handler's state after `init()`: the wallet (when
`ISSUER_PRIVATE_KEY` was configured) and the issuer DID. -/
structure CredentialHandler where
  wallet : Option Wallet
  issuerDid : String
deriving Repr, Inhabited

/-- A handler initialised from a configured key with the default DID
`did:ethr:` ++ wallet address (no `ISSUER_DID` override). -/
def initHandler (w : Wallet) : CredentialHandler :=
  { wallet := some w, issuerDid := "did:ethr:" ++ w.address }

/-- `ethers.utils.getAddress`: checksum normalisation, modelled as the
identity on the address string. -/
def getAddress (a : String) : String := a

/-- JS `String.prototype.split(sep)` on the character list (executable
model of the builtin; `"a:b".split(':') = ["a","b"]`, `":b".split(':') =
["", "b"]`). -/
def splitChar (sep : Char) : List Char → List (List Char)
  | [] => [[]]
  | c :: cs =>
    if c = sep then [] :: splitChar sep cs
    else
      match splitChar sep cs with
      | [] => [[c]]
      | g :: gs => (c :: g) :: gs

/-- JS `String.prototype.split(sep)`. -/
def jsSplit (sep : Char) (s : String) : List String :=
  (splitChar sep s.data).map String.mk

/-- Does `s` start with `pre`, on character lists. -/
def startsWithChars : List Char → List Char → Bool
  | _, [] => true
  | [], _ :: _ => false
  | c :: cs, p :: ps => if c = p then startsWithChars cs ps else false

/-- JS `String.prototype.startsWith`. -/
def jsStartsWith (s pre : String) : Bool := startsWithChars s.data pre.data

/-- JS `String.prototype.toLowerCase` (ASCII, which is all an Ethereum hex
address contains). -/
def jsToLower (s : String) : String := String.mk (s.data.map Char.toLower)

/-- Property read `additionalData.expirationDate` on the extension map. -/
def lookupStr : List (String × String) → String → Option String
  | [], _ => none
  | (k, v) :: rest, key => if k = key then some v else lookupStr rest key

/-- `v || undefined` for a possibly-absent string property: an absent or
falsy (empty) string becomes `undefined`. -/
def jsOrUndefined : Option String → Option String
  | none => none
  | some v => if v = "" then none else some v

/-- `_createProof`: sign the credential minus `proof` and assemble the
embedded-signature proof block (`created` is its own clock reading). -/
def createProof (w : Wallet) (issuerDid created : String)
    (data : CredentialData) : Proof :=
  { type := "EcdsaSecp256k1Signature2019", created := created,
    proofPurpose := "assertionMethod",
    verificationMethod := issuerDid ++ "#keys-1",
    jws := Jws.sig (signMessage w data), jwt := none }

/-- `createConsentCredential(participantAddress, consentId, studyId,
additionalData)`; `uuid` is the generated `uuidv4()`, `issuedAt` the
`toISOString()` reading, `proofCreated` the proof's own reading. -/
def createConsentCredential (h : CredentialHandler)
    (participantAddress : String) (consentId studyId : Nat)
    (additionalData : List (String × String))
    (uuid issuedAt proofCreated : String) : Except String Credential :=
  match h.wallet with
  | none => .error "Credential issuer not initialized"
  | some w =>
    let data : CredentialData :=
      { context := ["https://www.w3.org/2018/credentials/v1",
                    "https://schema.org",
                    "https://bioproof.io/credentials/v1"],
        id := "urn:uuid:" ++ uuid,
        type := ["VerifiableCredential", "BiometricConsentCredential"],
        issuer := h.issuerDid,
        issuanceDate := issuedAt,
        expirationDate := jsOrUndefined (lookupStr additionalData
          "expirationDate"),
        credentialSubject :=
          { id := "did:ethr:" ++ getAddress participantAddress,
            type := "BiometricConsent",
            consentId := toString consentId,
            studyId := toString studyId,
            grantedAt := issuedAt,
            additional := additionalData } }
    .ok { toCredentialData := data,
          proof := some (createProof w h.issuerDid proofCreated data) }

/-- `_verifyEthereumSignature`: strip the proof, recover the signer from
the signature over the stripped content (a throw is caught and yields
`false`), require a `did:ethr:` issuer, and compare the recovered address
with the DID's address part case-insensitively. -/
def verifyEthereumSignature (c : Credential) : Bool :=
  match c.proof with
  | none => false
  | some p =>
    match verifyMessage c.toCredentialData p.jws with
    | none => false
    | some recovered =>
      if jsStartsWith c.issuer "did:ethr:" then
        jsToLower recovered = jsToLower ((jsSplit ':' c.issuer).getD 2 "")
      else false

/-- `_verifyJwtProof`: read `proof.jwt` (absent throws, caught), verify it
with `JWT_SECRET`, and compare the token's issuer with the credential's
declared issuer (strict `===`). -/
def verifyJwtProof (secret : Option String) (c : Credential)
    (p : Proof) : Bool :=
  match p.jwt with
  | none => false
  | some t =>
    match jwtVerify t secret with
    | none => false
    | some decoded => decoded.iss = c.issuer

/-- `verifyCredential`: `false` without a proof, dispatch on the proof
`type` string, `false` for an unknown type; every thrown error inside is
caught and becomes `false` (the function is total and never throws). -/
def verifyCredential (secret : Option String) (c : Credential) : Bool :=
  match c.proof with
  | none => false
  | some p =>
    if p.type = "JwtProof2020" then verifyJwtProof secret c p
    else if p.type = "EcdsaSecp256k1Signature2019" then
      verifyEthereumSignature c
    else false

/-- Wallet and issued credential used to evaluate the issuance/verification
model on concrete inputs. -/
def wWallet : Wallet := { address := "0xAbCd" }

def wCred : Credential :=
  match createConsentCredential (initHandler wWallet) "0xP" 1 2
      [("purpose", "research")] "u1" "t1" "t2" with
  | .ok c => c
  | .error _ => default

/-- Concrete credentials exercising each failure path of the verifier. -/
def wData : CredentialData := wCred.toCredentialData

def credNoProof : Credential := { toCredentialData := wData, proof := none }

def proofUnknownType : Proof :=
  { type := "LinkedDataProof2015", created := "t",
    proofPurpose := "assertionMethod", verificationMethod := "m",
    jws := Jws.malformed, jwt := none }

def credUnknownType : Credential :=
  { toCredentialData := wData, proof := some proofUnknownType }

def proofMalformedSig : Proof :=
  { type := "EcdsaSecp256k1Signature2019", created := "t",
    proofPurpose := "assertionMethod", verificationMethod := "m",
    jws := Jws.malformed, jwt := none }

def credMalformedSig : Credential :=
  { toCredentialData := wData, proof := some proofMalformedSig }

/-- A signature over `wData` whose signer differs from the issuer address
`0xAbCd` only in letter case. -/
def sigCaseOnly : EthSignature := { signer := "0xabcd", signedOver := wData }

def proofCaseOnly : Proof :=
  { type := "EcdsaSecp256k1Signature2019", created := "t",
    proofPurpose := "assertionMethod", verificationMethod := "m",
    jws := Jws.sig sigCaseOnly, jwt := none }

def credCaseOnly : Credential :=
  { toCredentialData := wData, proof := some proofCaseOnly }

/-! ## Theorems -/

/-- Inversion: a successful `updateStudyMetadata` touches only `studies`. -/
theorem updateStudyMetadata_ok_inv (s : ContractState) (sender sid : Nat)
    (m : String) (s' : ContractState)
    (hk : updateStudyMetadata s sender sid m = Except.ok s') :
    s'.consents = s.consents ∧ s'.consentCounter = s.consentCounter := by
  unfold updateStudyMetadata at hk
  by_cases h1 : sid < s.studyCounter
  · rw [if_pos h1] at hk
    by_cases h2 : (s.studies sid).owner = sender
    · rw [if_pos h2] at hk
      injection hk with hk
      subst hk
      exact ⟨rfl, rfl⟩
    · rw [if_neg h2] at hk
      exact absurd hk (by simp)
  · rw [if_neg h1] at hk
    exact absurd hk (by simp)

/-- Inversion: a successful `setStudyActive` touches only `studies`. -/
theorem setStudyActive_ok_inv (s : ContractState) (sender sid : Nat)
    (a : Bool) (s' : ContractState)
    (hk : setStudyActive s sender sid a = Except.ok s') :
    s'.consents = s.consents ∧ s'.consentCounter = s.consentCounter := by
  unfold setStudyActive at hk
  by_cases h1 : sid < s.studyCounter
  · rw [if_pos h1] at hk
    by_cases h2 : (s.studies sid).owner = sender
    · rw [if_pos h2] at hk
      injection hk with hk
      subst hk
      exact ⟨rfl, rfl⟩
    · rw [if_neg h2] at hk
      exact absurd hk (by simp)
  · rw [if_neg h1] at hk
    exact absurd hk (by simp)

/-- Inversion: a successful `requestConsent` returns the old counter as the
new id, bumps the counter, writes the new `Pending` consent at that id,
overwrites the pairing index and appends to both enumeration arrays. -/
theorem requestConsent_ok_inv (s : ContractState)
    (sender now sid p : Nat) (dh : String) (exp : Nat)
    (s' : ContractState) (cid' : Nat)
    (hk : requestConsent s sender now sid p dh exp = Except.ok (s', cid')) :
    sid < s.studyCounter ∧ (s.studies sid).active = true ∧
    (s.studies sid).owner = sender ∧ cid' = s.consentCounter ∧
    s' = { s with
      consentCounter := s.consentCounter + 1,
      consents := updateFn s.consents s.consentCounter ({ s.consents s.consentCounter with participant := p, studyId := sid, ipfsConsentDocHash := dh, status := ConsentStatus.Pending, timestamp := now, expirationDate := exp }),
      consentIndex := updateFn2 s.consentIndex sid p s.consentCounter,
      studyParticipants := updateFn s.studyParticipants sid
        (s.studyParticipants sid ++ [p]),
      participantStudies := updateFn s.participantStudies p
        (s.participantStudies p ++ [sid]) } := by
  unfold requestConsent at hk
  by_cases h1 : sid < s.studyCounter
  · rw [if_pos h1] at hk
    by_cases h2 : (s.studies sid).active
    · rw [if_pos h2] at hk
      by_cases h3 : (s.studies sid).owner = sender
      · rw [if_pos h3] at hk
        injection hk with hk
        have hs' := congrArg Prod.fst hk
        have hc' := congrArg Prod.snd hk
        simp at hs' hc'
        exact ⟨h1, h2, h3, hc'.symm, hs'.symm⟩
      · rw [if_neg h3] at hk
        exact absurd hk (by simp)
    · rw [if_neg h2] at hk
      exact absurd hk (by simp)
  · rw [if_neg h1] at hk
    exact absurd hk (by simp)

/-- Inversion: a successful `grantConsent` had a `Pending` consent owned by
the caller, and only rewrites that consent's slot. -/
theorem grantConsent_ok_inv (s : ContractState) (sender now cid : Nat)
    (h : String) (s' : ContractState)
    (hk : grantConsent s sender now cid h = Except.ok s') :
    (s.consents cid).participant = sender ∧
    (s.consents cid).status = ConsentStatus.Pending ∧
    s' = { s with consents := updateFn s.consents cid ({ s.consents cid with status := ConsentStatus.Granted, timestamp := now, ipfsCredentialHash := h }) } := by
  unfold grantConsent at hk
  by_cases h1 : (s.consents cid).participant = sender
  · rw [if_pos h1] at hk
    by_cases h2 : (s.consents cid).status = ConsentStatus.Pending
    · rw [if_pos h2] at hk
      by_cases h3 : 0 < (s.consents cid).expirationDate ∧
          ¬ now < (s.consents cid).expirationDate
      · rw [if_pos h3] at hk
        exact absurd hk (by simp)
      · rw [if_neg h3] at hk
        injection hk with hk
        exact ⟨h1, h2, hk.symm⟩
    · rw [if_neg h2] at hk
      exact absurd hk (by simp)
  · rw [if_neg h1] at hk
    exact absurd hk (by simp)

/-- Inversion: a successful `revokeConsent` had a `Granted` consent owned by
the caller, and only rewrites that consent's slot. -/
theorem revokeConsent_ok_inv (s : ContractState) (sender now cid : Nat)
    (s' : ContractState)
    (hk : revokeConsent s sender now cid = Except.ok s') :
    (s.consents cid).participant = sender ∧
    (s.consents cid).status = ConsentStatus.Granted ∧
    s' = { s with consents := updateFn s.consents cid ({ s.consents cid with status := ConsentStatus.Revoked, timestamp := now }) } := by
  unfold revokeConsent at hk
  by_cases h1 : (s.consents cid).participant = sender
  · rw [if_pos h1] at hk
    by_cases h2 : (s.consents cid).status = ConsentStatus.Granted
    · rw [if_pos h2] at hk
      injection hk with hk
      exact ⟨h1, h2, hk.symm⟩
    · rw [if_neg h2] at hk
      exact absurd hk (by simp)
  · rw [if_neg h1] at hk
    exact absurd hk (by simp)

/-- Inversion: a successful `updateSpecificPermission` had a `Granted`
consent owned by the caller, and rewrites only that consent's permission
fields (its status stays `Granted`). -/
theorem updateSpecificPermission_ok_inv (s : ContractState)
    (sender cid : Nat) (key : String) (g : Bool) (s' : ContractState)
    (hk : updateSpecificPermission s sender cid key g = Except.ok s') :
    (s.consents cid).participant = sender ∧
    (s.consents cid).status = ConsentStatus.Granted ∧
    s' = { s with consents := updateFn s.consents cid ({ s.consents cid with permissionKeys := if (s.consents cid).permissionKeys.contains key then (s.consents cid).permissionKeys else (s.consents cid).permissionKeys ++ [key], specificPermissions := (key, g) :: (s.consents cid).specificPermissions }) } := by
  unfold updateSpecificPermission at hk
  by_cases h1 : (s.consents cid).participant = sender
  · rw [if_pos h1] at hk
    by_cases h2 : (s.consents cid).status = ConsentStatus.Granted
    · rw [if_pos h2] at hk
      injection hk with hk
      exact ⟨h1, h2, hk.symm⟩
    · rw [if_neg h2] at hk
      exact absurd hk (by simp)
  · rw [if_neg h1] at hk
    exact absurd hk (by simp)

/-- C2: `grantConsent` succeeds exactly when the caller is the consent's
participant, the stored status is `Pending`, and the deadline is 0 or now is
strictly before it; with those first two holding, an expired request reverts
with the expiration reason and the state (hence the `Pending` status) is
unchanged; on success the consent's slot gets status `Granted`, the
credential reference, and the timestamp set to now. -/
theorem grantConsent_spec (s : ContractState) (sender now consentId : Nat)
    (credHash : String) :
    ((∃ s', grantConsent s sender now consentId credHash = Except.ok s') ↔
      ((s.consents consentId).participant = sender ∧
       (s.consents consentId).status = ConsentStatus.Pending ∧
       ((s.consents consentId).expirationDate = 0 ∨
         now < (s.consents consentId).expirationDate))) ∧
    ((s.consents consentId).participant = sender ∧
     (s.consents consentId).status = ConsentStatus.Pending ∧
     ¬ (s.consents consentId).expirationDate = 0 ∧
     ¬ now < (s.consents consentId).expirationDate →
       exec s sender now (Op.grantConsent consentId credHash) =
         (s, some "Consent request has expired")) ∧
    (∀ s', grantConsent s sender now consentId credHash = Except.ok s' →
       s'.consents consentId =
         { s.consents consentId with
           status := ConsentStatus.Granted,
           ipfsCredentialHash := credHash,
           timestamp := now }) := by
  refine ⟨⟨?_, ?_⟩, ?_, ?_⟩
  · rintro ⟨s', h⟩
    obtain ⟨hp, hs, _⟩ := grantConsent_ok_inv s sender now consentId credHash s' h
    refine ⟨hp, hs, ?_⟩
    unfold grantConsent at h
    rw [if_pos hp, if_pos hs] at h
    by_cases he : 0 < (s.consents consentId).expirationDate ∧
        ¬ now < (s.consents consentId).expirationDate
    · rw [if_pos he] at h
      exact absurd h (by simp)
    · omega
  · rintro ⟨hp, hs, he⟩
    have he' : ¬ (0 < (s.consents consentId).expirationDate ∧
        ¬ now < (s.consents consentId).expirationDate) := by omega
    have hok : grantConsent s sender now consentId credHash =
        Except.ok { s with consents := updateFn s.consents consentId ({ s.consents consentId with status := ConsentStatus.Granted, timestamp := now, ipfsCredentialHash := credHash }) } := by
      unfold grantConsent
      rw [if_pos hp, if_pos hs, if_neg he']
    exact ⟨_, hok⟩
  · rintro ⟨hp, hs, he1, he2⟩
    have he : 0 < (s.consents consentId).expirationDate ∧
        ¬ now < (s.consents consentId).expirationDate := by omega
    have hg : grantConsent s sender now consentId credHash =
        Except.error "Consent request has expired" := by
      unfold grantConsent
      rw [if_pos hp, if_pos hs, if_pos he]
    simp [exec, hg]
  · intro s' h
    obtain ⟨hp, _, hst⟩ := grantConsent_ok_inv s sender now consentId credHash s' h
    subst hst
    simp [updateFn, hp]

/-- C2 witness: on a concrete pending consent (deadline 100, now 20) the
grant succeeds. -/
theorem grantConsent_spec_witness :
    ∃ s', grantConsent wPendState 2 20 0 "cred" = Except.ok s' :=
  (grantConsent_spec wPendState 2 20 0 "cred").1.mpr
    ⟨rfl, rfl, Or.inr (by decide)⟩

/-- C3: under the freshness invariant (ids at or above the counter are
unwritten), every operation moves a stored consent status only along
`Pending → Granted → Revoked`; a `Revoked` consent is never changed by any
operation, and a grant or revoke attempted by its participant on a
`Revoked` consent reverts with the corresponding state error, state
unchanged. -/
theorem consent_status_machine (s : ContractState) (sender now : Nat)
    (op : Op) (cid : Nat)
    (hfresh : ∀ i, s.consentCounter ≤ i →
      (s.consents i).status = ConsentStatus.None)
    (hne : ¬ (s.consents cid).status = ConsentStatus.None) :
    (((exec s sender now op).1.consents cid).status = (s.consents cid).status ∨
     ((s.consents cid).status = ConsentStatus.Pending ∧
      ((exec s sender now op).1.consents cid).status = ConsentStatus.Granted) ∨
     ((s.consents cid).status = ConsentStatus.Granted ∧
      ((exec s sender now op).1.consents cid).status =
        ConsentStatus.Revoked)) ∧
    ((s.consents cid).status = ConsentStatus.Revoked →
      (exec s sender now op).1.consents cid = s.consents cid) ∧
    ((s.consents cid).status = ConsentStatus.Revoked →
     (s.consents cid).participant = sender →
      (∀ h, exec s sender now (Op.grantConsent cid h) =
        (s, some "Consent must be in pending state")) ∧
      exec s sender now (Op.revokeConsent cid) =
        (s, some "Consent must be in granted state")) := by
  have hcid : cid < s.consentCounter := by
    by_contra hcon
    exact hne (hfresh cid (by omega))
  have hcne : ¬ cid = s.consentCounter := by omega
  refine ⟨?_, ?_, ?_⟩
  · cases op with
    | createStudy m t d => exact Or.inl rfl
    | updateStudyMetadata sid m =>
      cases hr : updateStudyMetadata s sender sid m with
      | ok s2 =>
        obtain ⟨hc, _⟩ := updateStudyMetadata_ok_inv s sender sid m s2 hr
        left
        simp [exec, hr, hc]
      | error e => left; simp [exec, hr]
    | setStudyActive sid a =>
      cases hr : setStudyActive s sender sid a with
      | ok s2 =>
        obtain ⟨hc, _⟩ := setStudyActive_ok_inv s sender sid a s2 hr
        left
        simp [exec, hr, hc]
      | error e => left; simp [exec, hr]
    | requestConsent sid p dh exp =>
      cases hr : requestConsent s sender now sid p dh exp with
      | ok val =>
        obtain ⟨s2, cid2⟩ := val
        obtain ⟨_, _, _, _, hst⟩ :=
          requestConsent_ok_inv s sender now sid p dh exp s2 cid2 hr
        subst hst
        left
        simp [exec, hr, updateFn, hcne]
      | error e => left; simp [exec, hr]
    | grantConsent cid' h =>
      cases hr : grantConsent s sender now cid' h with
      | ok s2 =>
        obtain ⟨hp, hpend, hst⟩ := grantConsent_ok_inv s sender now cid' h s2 hr
        subst hst
        by_cases hc : cid = cid'
        · subst hc
          right
          left
          exact ⟨hpend, by simp [exec, hr, updateFn]⟩
        · left
          simp [exec, hr, updateFn, hc]
      | error e => left; simp [exec, hr]
    | revokeConsent cid' =>
      cases hr : revokeConsent s sender now cid' with
      | ok s2 =>
        obtain ⟨hp, hgr, hst⟩ := revokeConsent_ok_inv s sender now cid' s2 hr
        subst hst
        by_cases hc : cid = cid'
        · subst hc
          right
          right
          exact ⟨hgr, by simp [exec, hr, updateFn]⟩
        · left
          simp [exec, hr, updateFn, hc]
      | error e => left; simp [exec, hr]
    | updateSpecificPermission cid' k g =>
      cases hr : updateSpecificPermission s sender cid' k g with
      | ok s2 =>
        obtain ⟨hp, hgr, hst⟩ :=
          updateSpecificPermission_ok_inv s sender cid' k g s2 hr
        subst hst
        left
        by_cases hc : cid = cid'
        · subst hc
          simp [exec, hr, updateFn]
        · simp [exec, hr, updateFn, hc]
      | error e => left; simp [exec, hr]
  · intro hrev
    cases op with
    | createStudy m t d => rfl
    | updateStudyMetadata sid m =>
      cases hr : updateStudyMetadata s sender sid m with
      | ok s2 =>
        obtain ⟨hc, _⟩ := updateStudyMetadata_ok_inv s sender sid m s2 hr
        simp [exec, hr, hc]
      | error e => simp [exec, hr]
    | setStudyActive sid a =>
      cases hr : setStudyActive s sender sid a with
      | ok s2 =>
        obtain ⟨hc, _⟩ := setStudyActive_ok_inv s sender sid a s2 hr
        simp [exec, hr, hc]
      | error e => simp [exec, hr]
    | requestConsent sid p dh exp =>
      cases hr : requestConsent s sender now sid p dh exp with
      | ok val =>
        obtain ⟨s2, cid2⟩ := val
        obtain ⟨_, _, _, _, hst⟩ :=
          requestConsent_ok_inv s sender now sid p dh exp s2 cid2 hr
        subst hst
        simp [exec, hr, updateFn, hcne]
      | error e => simp [exec, hr]
    | grantConsent cid' h =>
      cases hr : grantConsent s sender now cid' h with
      | ok s2 =>
        obtain ⟨hp, hpend, hst⟩ := grantConsent_ok_inv s sender now cid' h s2 hr
        subst hst
        by_cases hc : cid = cid'
        · subst hc
          rw [hrev] at hpend
          exact absurd hpend (by simp)
        · simp [exec, hr, updateFn, hc]
      | error e => simp [exec, hr]
    | revokeConsent cid' =>
      cases hr : revokeConsent s sender now cid' with
      | ok s2 =>
        obtain ⟨hp, hgr, hst⟩ := revokeConsent_ok_inv s sender now cid' s2 hr
        subst hst
        by_cases hc : cid = cid'
        · subst hc
          rw [hrev] at hgr
          exact absurd hgr (by simp)
        · simp [exec, hr, updateFn, hc]
      | error e => simp [exec, hr]
    | updateSpecificPermission cid' k g =>
      cases hr : updateSpecificPermission s sender cid' k g with
      | ok s2 =>
        obtain ⟨hp, hgr, hst⟩ :=
          updateSpecificPermission_ok_inv s sender cid' k g s2 hr
        subst hst
        by_cases hc : cid = cid'
        · subst hc
          rw [hrev] at hgr
          exact absurd hgr (by simp)
        · simp [exec, hr, updateFn, hc]
      | error e => simp [exec, hr]
  · intro hrev hp
    have hnp : ¬ (s.consents cid).status = ConsentStatus.Pending := by
      simp [hrev]
    have hng : ¬ (s.consents cid).status = ConsentStatus.Granted := by
      simp [hrev]
    constructor
    · intro h
      have hg : grantConsent s sender now cid h =
          Except.error "Consent must be in pending state" := by
        unfold grantConsent
        rw [if_pos hp, if_neg hnp]
      simp [exec, hg]
    · have hg : revokeConsent s sender now cid =
          Except.error "Consent must be in granted state" := by
        unfold revokeConsent
        rw [if_pos hp, if_neg hng]
      simp [exec, hg]

/-- C3 witness: on a concrete revoked consent, the participant's grant
attempt reverts with the pending-state error and the state is unchanged. -/
theorem consent_status_machine_witness :
    exec wRevState 2 40 (Op.grantConsent 0 "x") =
      (wRevState, some "Consent must be in pending state") :=
  (((consent_status_machine wRevState 2 40 (Op.grantConsent 0 "x") 0
      (fun i hi => by
        have hi' : (1 : Nat) ≤ i := hi
        have h0 : ¬ i = 0 := by omega
        simp [wRevState, mkState, updateFn, h0, defaultConsent])
      (by decide)).2.2) rfl rfl).1 "x"

/-- C4 counterexample: the contract's very first consent has id 0; once it
is granted (deadline 100), `getConsentStatus` at time 50 < 100 returns
`None` instead of `Granted`, because the pairing-index value 0 is taken for
"no consent". -/
theorem getConsentStatus_id0_counterexample :
    grantConsent cexB 2 20 0 "cred" = Except.ok cexC ∧
    cexC.consentIndex 0 2 = 0 ∧
    (cexC.consents 0).status = ConsentStatus.Granted ∧
    (cexC.consents 0).expirationDate = 100 ∧
    getConsentStatus cexC 50 0 2 = Except.ok ConsentStatus.None ∧
    ¬ (Except.ok ConsentStatus.None =
        (Except.ok ConsentStatus.Granted : Except String ConsentStatus)) :=
  ⟨rfl, rfl, rfl, rfl, rfl, by simp⟩

/-- C4 (amended to consents whose id is nonzero, i.e. all but the very
first): on an existing study, an absent pairing index (value 0) yields
`None`; a granted consent with a nonzero deadline reads as `Granted`
strictly before the deadline and as the computed `Expired` strictly after
it. `getConsentStatus` is a view: in this model it returns only a status
and by its type cannot write storage. -/
theorem getConsentStatus_expiration (s : ContractState)
    (now studyId participant : Nat) :
    (studyId < s.studyCounter → s.consentIndex studyId participant = 0 →
      getConsentStatus s now studyId participant =
        Except.ok ConsentStatus.None) ∧
    (studyId < s.studyCounter →
     ¬ s.consentIndex studyId participant = 0 →
     (s.consents (s.consentIndex studyId participant)).status =
       ConsentStatus.Granted →
     ¬ (s.consents (s.consentIndex studyId participant)).expirationDate = 0 →
      ((now < (s.consents (s.consentIndex studyId participant)).expirationDate →
         getConsentStatus s now studyId participant =
           Except.ok ConsentStatus.Granted) ∧
       ((s.consents (s.consentIndex studyId participant)).expirationDate < now →
         getConsentStatus s now studyId participant =
           Except.ok ConsentStatus.Expired))) := by
  constructor
  · intro hex hz
    unfold getConsentStatus
    rw [if_pos hex, if_pos hz]
  · intro hex hnz hst hexp
    constructor
    · intro hlt
      unfold getConsentStatus
      rw [if_pos hex, if_neg hnz, if_neg (by
        rintro ⟨-, h2, -⟩
        omega)]
      rw [hst]
    · intro hgt
      unfold getConsentStatus
      rw [if_pos hex, if_neg hnz, if_pos ⟨by omega, by omega, hst⟩]

/-- C4 witness: a granted consent stored at id 1 with deadline 100 reads as
`Granted` at time 50. -/
theorem getConsentStatus_expiration_witness :
    getConsentStatus wGrantState 50 0 2 = Except.ok ConsentStatus.Granted :=
  ((getConsentStatus_expiration wGrantState 50 0 2).2 (by decide) (by decide)
    rfl (by decide)).1 (by decide)

/-- C5: `checkPermission` reverts unless the stored status is `Granted`,
and once the deadline is nonzero and strictly passed it returns `false`
for every key, whatever the stored permission value. -/
theorem checkPermission_lapse (s : ContractState) (now consentId : Nat)
    (key : String) :
    (¬ (s.consents consentId).status = ConsentStatus.Granted →
      checkPermission s now consentId key =
        Except.error "Consent not granted") ∧
    ((s.consents consentId).status = ConsentStatus.Granted →
     ¬ (s.consents consentId).expirationDate = 0 →
     now > (s.consents consentId).expirationDate →
      checkPermission s now consentId key = Except.ok false) := by
  constructor
  · intro hs
    unfold checkPermission
    rw [if_neg hs]
  · intro hs he hn
    have hc : 0 < (s.consents consentId).expirationDate ∧
        now > (s.consents consentId).expirationDate := by omega
    unfold checkPermission
    rw [if_pos hs, if_pos hc]

/-- C5 witness: at time 200 > deadline 100 the lapsed grant denies the key
`share` although its stored value is `true`. -/
theorem checkPermission_lapse_witness :
    checkPermission wGrantState 200 1 "share" = Except.ok false ∧
    lookupPerm (wGrantState.consents 1).specificPermissions "share" = true :=
  ⟨(checkPermission_lapse wGrantState 200 1 "share").2 rfl (by decide)
    (by decide), rfl⟩

/-- C6: the claim is right about the sentinel convention (`getConsentStatus`
treats pairing-index 0 as "no consent") but the counters start at 0, not 1:
the first study and the first consent both get id 0, so the very first
consent is reported `None` by `getConsentStatus` even while it exists and
is `Pending` — the code contradicts its own sentinel check. -/
theorem counters_base_zero_bug :
    (createStudy initialState 1 5 "m" "t" "d").2 = 0 ∧
    requestConsent cexA 1 10 0 2 "doc" 100 = Except.ok (cexB, 0) ∧
    (cexB.consents 0).status = ConsentStatus.Pending ∧
    cexB.consentIndex 0 2 = 0 ∧
    getConsentStatus cexB 11 0 2 = Except.ok ConsentStatus.None :=
  ⟨rfl, rfl, rfl, rfl, rfl⟩

/-- C7 counterexample: the `Consent` struct has a single `timestamp` field;
granting at time 20 a consent requested at time 10 overwrites it, and the
whole post-grant record (shown in full) retains nothing equal to the
request time. -/
theorem request_timestamp_overwritten_cex :
    (cexB.consents 0).timestamp = 10 ∧
    grantConsent cexB 2 20 0 "cred" = Except.ok cexC ∧
    (cexC.consents 0).timestamp = 20 ∧
    cexC.consents 0 = { cexB.consents 0 with
      status := ConsentStatus.Granted, timestamp := 20,
      ipfsCredentialHash := "cred" } ∧
    ¬ (10 : Nat) = 20 :=
  ⟨rfl, rfl, rfl, rfl, by omega⟩

/-- C7 (amended): `requestConsent`, `grantConsent` and `revokeConsent` all
write the current time into the consent's single `timestamp` field, so a
successful grant or revocation overwrites the request time instead of
keeping it as a separate readable field. -/
theorem consent_timestamp_overwritten (s : ContractState)
    (sender now cid : Nat) (h : String) :
    (∀ s', grantConsent s sender now cid h = Except.ok s' →
      (s'.consents cid).timestamp = now) ∧
    (∀ s', revokeConsent s sender now cid = Except.ok s' →
      (s'.consents cid).timestamp = now) ∧
    (∀ sid p dh exp s' cid',
      requestConsent s sender now sid p dh exp = Except.ok (s', cid') →
      (s'.consents cid').timestamp = now) := by
  refine ⟨?_, ?_, ?_⟩
  · intro s' hk
    obtain ⟨_, _, hst⟩ := grantConsent_ok_inv s sender now cid h s' hk
    subst hst
    simp [updateFn]
  · intro s' hk
    obtain ⟨_, _, hst⟩ := revokeConsent_ok_inv s sender now cid s' hk
    subst hst
    simp [updateFn]
  · intro sid p dh exp s' cid' hk
    obtain ⟨_, _, _, hcid, hst⟩ :=
      requestConsent_ok_inv s sender now sid p dh exp s' cid' hk
    subst hst
    subst hcid
    simp [updateFn]

/-- C7 witness: granting the concrete pending consent (requested at 10) at
time 20 leaves its only timestamp equal to 20. -/
theorem consent_timestamp_overwritten_witness :
    (wGrantRes.consents 0).timestamp = 20 :=
  (consent_timestamp_overwritten wPendState 2 20 0 "c").1 wGrantRes rfl

/-- C9: revoking a granted consent rewrites only that consent's status and
timestamp; its permissions map, ordered key list, credential reference and
every other field — and all other storage — are unchanged. -/
theorem revokeConsent_frame (s : ContractState) (sender now consentId : Nat)
    (hp : (s.consents consentId).participant = sender)
    (hs : (s.consents consentId).status = ConsentStatus.Granted) :
    ∃ s', revokeConsent s sender now consentId = Except.ok s' ∧
      (s'.consents consentId).status = ConsentStatus.Revoked ∧
      (s'.consents consentId).timestamp = now ∧
      (s'.consents consentId).specificPermissions =
        (s.consents consentId).specificPermissions ∧
      (s'.consents consentId).permissionKeys =
        (s.consents consentId).permissionKeys ∧
      (s'.consents consentId).ipfsCredentialHash =
        (s.consents consentId).ipfsCredentialHash ∧
      (s'.consents consentId).participant =
        (s.consents consentId).participant ∧
      (s'.consents consentId).studyId = (s.consents consentId).studyId ∧
      (s'.consents consentId).ipfsConsentDocHash =
        (s.consents consentId).ipfsConsentDocHash ∧
      (s'.consents consentId).expirationDate =
        (s.consents consentId).expirationDate ∧
      (∀ i, ¬ i = consentId → s'.consents i = s.consents i) ∧
      s'.studyCounter = s.studyCounter ∧
      s'.consentCounter = s.consentCounter ∧
      s'.studies = s.studies ∧
      s'.participantStudies = s.participantStudies ∧
      s'.studyParticipants = s.studyParticipants ∧
      s'.consentIndex = s.consentIndex := by
  have hok : revokeConsent s sender now consentId =
      Except.ok { s with consents := updateFn s.consents consentId ({ s.consents consentId with status := ConsentStatus.Revoked, timestamp := now }) } := by
    unfold revokeConsent
    rw [if_pos hp, if_pos hs]
  refine ⟨_, hok, ?_⟩
  refine ⟨?_, ?_, ?_, ?_, ?_, ?_, ?_, ?_, ?_, ?_, ?_, ?_, ?_, ?_, ?_, ?_⟩ <;>
    simp [updateFn]
  intro i hi h
  exact absurd h hi

/-- C9 witness: revoking the concrete granted consent keeps its permission
map, key list and credential reference. -/
theorem revokeConsent_frame_witness :
    ∃ s', revokeConsent wGrantState 2 60 1 = Except.ok s' ∧
      (s'.consents 1).status = ConsentStatus.Revoked ∧
      (s'.consents 1).timestamp = 60 ∧
      (s'.consents 1).specificPermissions = [("share", true)] ∧
      (s'.consents 1).permissionKeys = ["share"] ∧
      (s'.consents 1).ipfsCredentialHash = "cred" ∧
      (s'.consents 1).participant = 2 ∧
      (s'.consents 1).studyId = 0 ∧
      (s'.consents 1).ipfsConsentDocHash = "doc" ∧
      (s'.consents 1).expirationDate = 100 ∧
      (∀ i, ¬ i = 1 → s'.consents i = wGrantState.consents i) ∧
      s'.studyCounter = 1 ∧
      s'.consentCounter = 2 ∧
      s'.studies = wGrantState.studies ∧
      s'.participantStudies = wGrantState.participantStudies ∧
      s'.studyParticipants = wGrantState.studyParticipants ∧
      s'.consentIndex = wGrantState.consentIndex :=
  revokeConsent_frame wGrantState 2 60 1 rfl rfl

/-- C10: two successful `requestConsent` calls for the same
(study, participant) pair append the participant and the study id to the
enumeration arrays twice (no deduplication), while the pairing index holds
only the second, larger consent id. -/
theorem requestConsent_duplicate (s : ContractState)
    (sender now1 now2 studyId participant : Nat) (dh1 dh2 : String)
    (e1 e2 : Nat) (s1 : ContractState) (id1 : Nat) (s2 : ContractState)
    (id2 : Nat)
    (h1 : requestConsent s sender now1 studyId participant dh1 e1 =
      Except.ok (s1, id1))
    (h2 : requestConsent s1 sender now2 studyId participant dh2 e2 =
      Except.ok (s2, id2)) :
    getStudyParticipants s2 studyId =
      Except.ok (s.studyParticipants studyId ++ [participant, participant]) ∧
    getParticipantStudies s2 participant =
      s.participantStudies participant ++ [studyId, studyId] ∧
    s2.consentIndex studyId participant = id2 ∧
    id2 = id1 + 1 := by
  obtain ⟨hx1, _, _, hid1, hst1⟩ :=
    requestConsent_ok_inv s sender now1 studyId participant dh1 e1 s1 id1 h1
  subst hst1
  obtain ⟨hx2, _, _, hid2, hst2⟩ :=
    requestConsent_ok_inv _ sender now2 studyId participant dh2 e2 s2 id2 h2
  subst hst2
  subst hid1
  subst hid2
  refine ⟨?_, ?_, ?_, ?_⟩
  · unfold getStudyParticipants
    rw [if_pos hx1]
    simp [updateFn]
  · unfold getParticipantStudies
    simp [updateFn]
  · simp [updateFn2]
  · rfl

/-- C10 witness: after the concrete second request for the same pair, the
enumeration lists hold the participant and study twice and the index points
at consent 1. -/
theorem requestConsent_duplicate_witness :
    getStudyParticipants cexB2 0 = Except.ok [2, 2] ∧
    getParticipantStudies cexB2 2 = [0, 0] ∧
    cexB2.consentIndex 0 2 = 1 ∧
    (1 : Nat) = 0 + 1 :=
  requestConsent_duplicate cexA 1 10 11 0 2 "doc" "doc2" 100 100 cexB 0
    cexB2 1 rfl rfl

/-- Splitting a list without the separator yields a single group. -/
theorem splitChar_no_sep (sep : Char) (l : List Char)
    (h : ∀ c ∈ l, ¬ c = sep) : splitChar sep l = [l] := by
  induction l with
  | nil => rfl
  | cons c cs ih =>
    have hc : ¬ c = sep := h c (by simp)
    have hcs : ∀ x ∈ cs, ¬ x = sep := fun x hx => h x (by simp [hx])
    simp [splitChar, hc, ih hcs]

/-- Any string of the form `did:ethr:a` starts with `did:ethr:`. -/
theorem jsStartsWith_didethr (a : String) :
    jsStartsWith ("did:ethr:" ++ a) "did:ethr:" = true := by
  have h9 : "did:ethr:".data = ['d','i','d',':','e','t','h','r',':'] := rfl
  simp [jsStartsWith, String.data_append, h9, startsWithChars]

/-- Splitting `did:ethr:a` at `:` puts a colon-free `a` at position 2,
exactly what the verifier reads as the issuer address. -/
theorem jsSplit_didethr (a : String) (h : ∀ c ∈ a.data, ¬ c = ':') :
    jsSplit ':' ("did:ethr:" ++ a) = ["did", "ethr", a] := by
  have h9 : "did:ethr:".data = ['d','i','d',':','e','t','h','r',':'] := rfl
  simp [jsSplit, String.data_append, h9, splitChar,
    splitChar_no_sep ':' a.data h]

/-- C1: a credential freshly issued by `createConsentCredential` under a
configured wallet (issuer DID derived from the wallet address, which, being
hex, contains no colon) verifies `true`; any credential carrying the
original proof but any change to the signed content — in particular any
single-byte alteration of the claims — verifies `false`. -/
theorem credential_roundtrip (w : Wallet)
    (hnc : ∀ c ∈ w.address.data, ¬ c = ':')
    (participantAddress : String) (consentId studyId : Nat)
    (additionalData : List (String × String))
    (uuid issuedAt proofCreated : String)
    (cred : Credential) (secret : Option String)
    (hc : createConsentCredential (initHandler w) participantAddress consentId
      studyId additionalData uuid issuedAt proofCreated = Except.ok cred) :
    verifyCredential secret cred = true ∧
    (∀ c' : Credential, c'.proof = cred.proof →
      ¬ c'.toCredentialData = cred.toCredentialData →
      verifyCredential secret c' = false) := by
  simp only [createConsentCredential, initHandler] at hc
  injection hc with hc
  subst hc
  constructor
  · simp [verifyCredential, verifyEthereumSignature, verifyMessage,
      createProof, signMessage, jsStartsWith_didethr w.address,
      jsSplit_didethr w.address hnc]
  · intro c' hp hd
    simp [createProof, signMessage] at hp
    simp [verifyCredential, hp, verifyEthereumSignature, verifyMessage]
    rw [if_neg (fun h => hd h.symm)]

/-- C1 witness: the concrete issued credential verifies, and every
claims-altered variant keeping its proof does not. -/
theorem credential_roundtrip_witness :
    verifyCredential none wCred = true ∧
    (∀ c' : Credential, c'.proof = wCred.proof →
      ¬ c'.toCredentialData = wCred.toCredentialData →
      verifyCredential none c' = false) :=
  credential_roundtrip wWallet (by decide) "0xP" 1 2 [("purpose", "research")]
    "u1" "t1" "t2" wCred none rfl

/-- C8: `verifyCredential` is a total boolean function (thrown errors are
caught, so it never throws): it returns `false` for a missing proof, for an
unknown proof type, and for a malformed signature; for a well-formed
signature over the credential's own content it returns `true` exactly when
the issuer is a `did:ethr:` DID whose address part equals the recovered
signer up to letter case. -/
theorem verifyCredential_cases (secret : Option String) (c : Credential) :
    (c.proof = none → verifyCredential secret c = false) ∧
    (∀ p, c.proof = some p → ¬ p.type = "JwtProof2020" →
      ¬ p.type = "EcdsaSecp256k1Signature2019" →
      verifyCredential secret c = false) ∧
    (∀ p, c.proof = some p → p.type = "EcdsaSecp256k1Signature2019" →
      p.jws = Jws.malformed → verifyCredential secret c = false) ∧
    (∀ p sg, c.proof = some p → p.type = "EcdsaSecp256k1Signature2019" →
      p.jws = Jws.sig sg → sg.signedOver = c.toCredentialData →
      (verifyCredential secret c = true ↔
        (jsStartsWith c.issuer "did:ethr:" = true ∧
         jsToLower sg.signer =
           jsToLower ((jsSplit ':' c.issuer).getD 2 "")))) := by
  refine ⟨?_, ?_, ?_, ?_⟩
  · intro h
    simp [verifyCredential, h]
  · intro p hp h1 h2
    simp [verifyCredential, hp, h1, h2]
  · intro p hp ht hj
    simp [verifyCredential, hp, ht, verifyEthereumSignature, hj,
      verifyMessage]
  · intro p sg hp ht hj hs
    simp [verifyCredential, hp, ht, verifyEthereumSignature, hj,
      verifyMessage, hs, Bool.and_eq_true, decide_eq_true_eq]

/-- C8 witness: the four dispatch outcomes on concrete credentials — no
proof, unknown proof type, malformed signature all `false`; a signer
differing from the issuer address only in case verifies `true`. -/
theorem verifyCredential_cases_witness :
    verifyCredential none credNoProof = false ∧
    verifyCredential none credUnknownType = false ∧
    verifyCredential none credMalformedSig = false ∧
    verifyCredential none credCaseOnly = true :=
  ⟨(verifyCredential_cases none credNoProof).1 rfl,
   (verifyCredential_cases none credUnknownType).2.1 proofUnknownType rfl
     (by decide) (by decide),
   (verifyCredential_cases none credMalformedSig).2.2.1 proofMalformedSig rfl
     rfl rfl,
   ((verifyCredential_cases none credCaseOnly).2.2.2 proofCaseOnly sigCaseOnly
     rfl rfl rfl rfl).mpr ⟨by decide, by decide⟩⟩

end BioProof
